import Mathlib

/-!
Shallow embedding of the wimlib-imagex wrapper (src/lib/index.js).

The wrapper shells out to an external binary; here we model its own logic:
the capture-encoding decision, the XML-output cleanup pass, the caught
exception that `_spawn` returns as a value, the option-to-flag builder,
and each public operation's argument construction and error checks.
JavaScript strings are modelled as `List Char` (one entry per UTF-16 code
unit; all inputs considered lie in the BMP), thrown errors as
`Except.error` carrying the error message, and JS truthiness explicitly.
-/

/-- Capture encoding chosen by `_spawn` for the subprocess stdout. -/
inductive Encoding where
  | utf16le
  | utf8
  deriving DecidableEq

/-- Transcribes `process.platform !== 'win32' && outputIsXml ? 'utf16le' : 'utf8'`
(src/lib/index.js:27-28), where `outputIsXml = args.includes('--xml')`. -/
def spawnEncoding (platform : String) (args : List String) : Encoding :=
  if platform ≠ "win32" ∧ "--xml" ∈ args then Encoding.utf16le else Encoding.utf8

/-- Characters that are invalid as a complete one-character regex
pattern: for these markers `new RegExp(output[1], 'g')` throws a
SyntaxError, which the try block of `_spawn` catches and returns as a
value (see `cleanupThrows` and `spawnReturn`). -/
def regexInvalidChar (c : Char) : Bool :=
  c ∈ ['\\', '(', ')', '[', '*', '+', '?']

/-- Characters whose one-character regex matches only empty positions
(the anchors and the bare alternation): the global replace with the empty
string then strips nothing. -/
def regexEmptyMatchChar (c : Char) : Bool :=
  c ∈ ['^', '$', '|']

/-- The JS line terminators, the only characters the pattern `.` does not
match. -/
def lineTerminator (c : Char) : Bool :=
  c ∈ ['\n', '\r', '\u2028', '\u2029']

/-- Markers for which the built regex matches exactly that literal
character: every character that is not regex-invalid, not an
empty-match marker and not the dot. -/
def regexLiteralChar (c : Char) : Bool :=
  !(regexInvalidChar c || regexEmptyMatchChar c || (c == '.'))

/-- Transcribes the cleanup applied to an 8-bit XML capture
(src/lib/index.js:39-40): `output = output.substring(2);
output = output.replace(new RegExp(output[1], 'g'), '')`.
A marker in the empty-match class (`^`, `$`, `|`) matches only empty
positions, so the replace strips nothing; the marker `.` matches every
character except the line terminators, stripping all others; any other
valid one-character pattern matches that literal character, which is
stripped everywhere. When the truncated buffer has fewer than two
characters, `output[1]` is `undefined` and `new RegExp(undefined)` is the
empty pattern, whose global empty matches replace nothing. When the
marker is regex-invalid the constructor throws instead — `cleanupThrows`
models that case and `spawnReturn` returns the caught SyntaxError, so
this function's value is consulted only when the construction
succeeds. -/
def cleanupXmlOutput (out : List Char) : List Char :=
  let t := out.drop 2
  match t[1]? with
  | none => t
  | some c =>
    if regexEmptyMatchChar c then t
    else if c = '.' then t.filter (fun x => lineTerminator x)
    else t.filter (fun x => decide (x ≠ c))

/-- Whether the cleanup's regex construction throws a SyntaxError: the
truncated buffer has a second character and it is an invalid
one-character pattern. -/
def cleanupThrows (out : List Char) : Bool :=
  match (out.drop 2)[1]? with
  | some c => regexInvalidChar c
  | none => false

/-- Transcribes the post-processing guard `if (encoding === 'utf8' && outputIsXml)`
(src/lib/index.js:38). -/
def postProcess (platform : String) (args : List String) (out : List Char) : List Char :=
  if spawnEncoding platform args = Encoding.utf8 ∧ "--xml" ∈ args then
    cleanupXmlOutput out
  else out

/-- A JavaScript exception object as `_spawn` sees it: a message and a
`code` property (exit status, or a nonzero stand-in for an errno string). -/
structure JsError where
  message : String
  code : Int
  deriving DecidableEq

/-- Raw outcome of the underlying process-spawning primitive. -/
inductive SpawnRaw where
  | ok (stdout : List Char)
  | fail (e : JsError)
  deriving DecidableEq

/-- Value `_spawn` hands back to its caller: either the (post-processed)
output text, or the caught exception object returned as a value by the
`catch (ex) { return ex; }` branch (src/lib/index.js:43-44). -/
inductive SpawnResult where
  | text (out : List Char)
  | exc (e : JsError)
  deriving DecidableEq

/-- The SyntaxError thrown by an invalid marker regex and caught by the
try block: a truthy object with no `code` property (modelled as 0,
falsy). -/
def syntaxErrorJs : JsError :=
  ⟨"Invalid regular expression", 0⟩

/-- The `_spawn` generator (src/lib/index.js:13-45): spawn, accumulate
stdout, post-process, and never rethrow — both a spawn failure and a
SyntaxError from the cleanup's regex construction are caught and returned
as the exception object itself. -/
def spawnReturn (platform : String) (args : List String) (raw : SpawnRaw) : SpawnResult :=
  match raw with
  | SpawnRaw.ok stdout =>
    if spawnEncoding platform args = Encoding.utf8 ∧ "--xml" ∈ args then
      if cleanupThrows stdout then SpawnResult.exc syntaxErrorJs
      else SpawnResult.text (cleanupXmlOutput stdout)
    else SpawnResult.text stdout
  | SpawnRaw.fail e => SpawnResult.exc e

/-- JS falsiness of the `_spawn` result (`!out`): an empty string is
falsy, every exception object is truthy. -/
def jsFalsyOut : SpawnResult → Bool
  | SpawnResult.text s => s.isEmpty
  | SpawnResult.exc _ => false

/-- Truthiness of `out.code`: a string has no `code` property (undefined,
falsy); an exception object carries its code, truthy iff nonzero. -/
def outCodeTruthy : SpawnResult → Bool
  | SpawnResult.text _ => false
  | SpawnResult.exc e => decide (e.code ≠ 0)

/-- Options record accepted by the public operations (JSDoc of
`_argsOptionsBuilder` and the `image` field used by extract/update). -/
structure WimOptions where
  destDir : Option String := none
  toStdout : Bool := false
  sourceList : Bool := false
  compress : Option String := none
  noAcls : Bool := false
  unixData : Bool := false
  rebuild : Bool := false
  check : Bool := false
  noGlobs : Bool := false
  image : Option Nat := none
  deriving DecidableEq

/-- JS truthiness of an optional string field: absent and empty are falsy. -/
def jsTruthyStr : Option String → Bool
  | none => false
  | some s => !s.isEmpty

/-- String value of an optional field (only read under a truthy guard). -/
def optStr : Option String → String
  | some s => s
  | none => ""

/-- Transcribes `Wim._argsOptionsBuilder` (src/lib/index.js:63-93): nine
sequential `if (options.x) args.push(...)` statements, rendered as list
concatenation in the same order. -/
def argsOptionsBuilder (o : WimOptions) : List String :=
  (if jsTruthyStr o.destDir then ["--dest-dir=" ++ optStr o.destDir] else []) ++
    (if o.toStdout then ["--to-stdout"] else []) ++
    (if o.sourceList then ["--source-list"] else []) ++
    (if jsTruthyStr o.compress then ["--compress=" ++ optStr o.compress] else []) ++
    (if o.noAcls then ["--no-acls"] else []) ++
    (if o.unixData then ["--unix-data"] else []) ++
    (if o.rebuild then ["--rebuild"] else []) ++
    (if o.check then ["--check"] else []) ++
    (if o.noGlobs then ["--no-globs"] else [])

/-- Specification-side emission for the destination-directory flag. -/
def emitDestDir : Option String → List String
  | none => []
  | some s => if s = "" then [] else ["--dest-dir=" ++ s]

/-- Specification-side emission for the stdout-redirect flag. -/
def emitToStdout (b : Bool) : List String :=
  if b then ["--to-stdout"] else []

/-- Specification-side emission for the source-list flag. -/
def emitSourceList (b : Bool) : List String :=
  if b then ["--source-list"] else []

/-- Specification-side emission for the compression flag. -/
def emitCompress : Option String → List String
  | none => []
  | some s => if s = "" then [] else ["--compress=" ++ s]

/-- Specification-side emission for the no-acls flag. -/
def emitNoAcls (b : Bool) : List String :=
  if b then ["--no-acls"] else []

/-- Specification-side emission for the unix-data flag. -/
def emitUnixData (b : Bool) : List String :=
  if b then ["--unix-data"] else []

/-- Specification-side emission for the rebuild flag. -/
def emitRebuild (b : Bool) : List String :=
  if b then ["--rebuild"] else []

/-- Specification-side emission for the integrity-check flag. -/
def emitCheck (b : Bool) : List String :=
  if b then ["--check"] else []

/-- Specification-side emission for the no-globs flag. -/
def emitNoGlobs (b : Bool) : List String :=
  if b then ["--no-globs"] else []

/-- Transcribes `if (!options.image) { options.image = 1; }`: a missing or
zero image index (both falsy in JS) is overwritten with 1. -/
def imageDefaulted (i : Option Nat) : Option Nat :=
  match i with
  | none => some 1
  | some 0 => some 1
  | some n => some n

/-- The `capture` operation (src/lib/index.js:112-119): builds the argv
`['capture', source, outputWim, ...flags]`, awaits `_spawn`, and performs
no check whatsoever on the spawn result — it can only return normally. -/
def captureModel (outputWim source : String) (o : WimOptions) (_out : SpawnResult) :
    Except String (List String) :=
  Except.ok ("capture" :: source :: outputWim :: argsOptionsBuilder o)

/-- Value of the caller's options record after `extract` ran
(src/lib/index.js:142-147): the image index is defaulted in place and a
truthy `outputDir` argument is written into `options.destDir`. -/
def extractOptionsAfter (outputDir : Option String) (o : WimOptions) : WimOptions :=
  let o1 := { o with image := imageDefaulted o.image }
  if jsTruthyStr outputDir then { o1 with destDir := outputDir } else o1

/-- Argument vector `extract` passes to the subprocess
(src/lib/index.js:149-156): `['extract', inputWim, options.image,
inputPath, ...flags]`, built from the mutated options record. -/
def extractArgv (inputWim inputPath : String) (outputDir : Option String) (o : WimOptions) :
    List String :=
  let o2 := extractOptionsAfter outputDir o
  "extract" :: inputWim :: toString (o2.image.getD 1) :: inputPath :: argsOptionsBuilder o2

/-- The `extract` operation: builds the argv and returns the `_spawn`
result directly, with no status check (src/lib/index.js:138-157). -/
def extractModel (inputWim inputPath : String) (outputDir : Option String) (o : WimOptions)
    (out : SpawnResult) : Except String (List String × SpawnResult) :=
  Except.ok (extractArgv inputWim inputPath outputDir o, out)

/-- Arguments `info` passes to `_spawn` after the action name
(src/lib/index.js:169): XML output is always requested. -/
def infoSpawnArgs (inputWim : String) : List String :=
  ["--xml", inputWim]

/-- Full argv of the `info` subprocess invocation. -/
def infoArgv (inputWim : String) : List String :=
  "info" :: infoSpawnArgs inputWim

/-- The status check of `info` (src/lib/index.js:170-173): throws a
retrieval error iff the result is falsy (empty output) or has a truthy
`code`; otherwise the result is returned to be parsed as XML (the parse
itself is delegated to the external xml2js library). -/
def infoModel (inputWim : String) (out : SpawnResult) : Except String SpawnResult :=
  if jsFalsyOut out || outCodeTruthy out then
    Except.error ("Cannot retrieve WIM metadata from " ++ inputWim)
  else Except.ok out

/-- An update command record `{type, input, output}`. -/
structure UpdateCommand where
  type : String
  input : String
  output : String
  deriving DecidableEq

/-- The `update` operation (src/lib/index.js:191-214): defaults the image
index, requires a command, renders the supported variants as
`<verb> "<input>" "<output>"`, throws on anything else, and passes
`['update', inputWim, options.image, command, ...flags]` to the
subprocess. The returned list is that argument vector; the errors are the
throws that happen before any subprocess is spawned. -/
def updateModel (inputWim : String) (command : Option UpdateCommand) (o : WimOptions)
    (_out : SpawnResult) : Except String (List String) :=
  let o2 : WimOptions := { o with image := imageDefaulted o.image }
  match command with
  | none => Except.error ("A command must be specified")
  | some c =>
    if c.type = "add" ∨ c.type = "delete" ∨ c.type = "rename" then
      Except.ok ("update" :: inputWim :: toString (o2.image.getD 1) ::
        (c.type ++ " \"" ++ c.input ++ "\" \"" ++ c.output ++ "\"") :: argsOptionsBuilder o2)
    else Except.error ("command " ++ c.type ++ " not supported")

/-- Value of the caller's options record after `update` ran
(src/lib/index.js:194-196): only the image index is defaulted in place. -/
def updateOptionsAfter (o : WimOptions) : WimOptions :=
  { o with image := imageDefaulted o.image }

/-- The status check of `verify` (src/lib/index.js:221-226): throws an
integrity error iff `out.code` is truthy. -/
def verifyModel (inputWim : String) (out : SpawnResult) : Except String Unit :=
  if outCodeTruthy out then
    Except.error ("Integrity of " ++ inputWim ++ " file seems compromised")
  else Except.ok ()

/-- The status check of `dir` (src/lib/index.js:234-241): throws a
retrieval error iff the result is falsy or has a truthy `code`; otherwise
the raw listing text is returned. -/
def dirModel (inputWim : String) (out : SpawnResult) : Except String SpawnResult :=
  if jsFalsyOut out || outCodeTruthy out then
    Except.error ("Cannot retrieve WIM directories and files from " ++ inputWim)
  else Except.ok out

/-- Whether an operation completed without throwing. -/
def exceptIsOk {α : Type} : Except String α → Bool
  | Except.ok _ => true
  | Except.error _ => false

/-- Helper: the char removed by the cleanup filter never occurs in its result. -/
theorem not_mem_filter_ne_self (c : Char) (l : List Char) :
    c ∉ l.filter (fun x => decide (x ≠ c)) := by
  intro h
  rcases List.mem_filter.mp h with ⟨_, hc⟩
  simp at hc

/-- C1 counterexample: for the buffer "abxyxyxy" (first two characters
junk, third character the repeated character x), the 8-bit XML cleanup
pass yields "xxx" — it strips the second character y of the truncated
buffer, not the first, so x still occurs in the result, contrary to the
claim that the noise marker is the first character of the truncated
buffer and that no occurrence of it survives. -/
theorem cleanup_marker_is_not_first_char_of_truncation :
    postProcess ("win32") (["--xml"]) (['a', 'b', 'x', 'y', 'x', 'y', 'x', 'y']) =
      (['x', 'x', 'x']) ∧
    'x' ∈ postProcess ("win32") (["--xml"]) (['a', 'b', 'x', 'y', 'x', 'y', 'x', 'y']) := by
  constructor
  · decide
  · decide

/-- C1 amended: when 8-bit capture was chosen for an XML request and the
noise marker — the SECOND character of the truncated buffer, `output[1]`
in the source — is an ordinary character (one whose one-character regex
matches it literally, as the in-practice NUL marker does), the
post-processing removes the first two characters of the buffer and then
deletes every occurrence of that marker; consequently the marker does not
occur in the result. For regex-metacharacter markers the replace strips
differently or the regex construction throws, per `cleanupXmlOutput` and
`cleanupThrows`. -/
theorem cleanup_strips_second_char_of_truncation (platform : String) (args : List String)
    (s : List Char) (c : Char)
    (henc : spawnEncoding platform args = Encoding.utf8) (hxml : "--xml" ∈ args)
    (hc : (s.drop 2)[1]? = some c) (hlit : regexLiteralChar c = true) :
    postProcess platform args s = (s.drop 2).filter (fun x => decide (x ≠ c)) ∧
    c ∉ postProcess platform args s := by
  simp only [regexLiteralChar, Bool.not_eq_true', Bool.or_eq_false_iff, beq_eq_false_iff_ne]
    at hlit
  have hpost : postProcess platform args s = (s.drop 2).filter (fun x => decide (x ≠ c)) := by
    unfold postProcess
    rw [if_pos ⟨henc, hxml⟩]
    unfold cleanupXmlOutput
    simp only [hc, hlit.1.2, hlit.2, Bool.false_eq_true, if_false]
  exact ⟨hpost, hpost ▸ not_mem_filter_ne_self c (s.drop 2)⟩

/-- Witness for the amended C1 theorem at the concrete buffer "abxyxy"
captured 8-bit on a Windows-like platform for an XML request, with the
ordinary noise marker y. -/
theorem cleanup_strips_second_char_of_truncation_witness :
    postProcess ("win32") (["--xml"]) (['a', 'b', 'x', 'y', 'x', 'y']) =
      ((['a', 'b', 'x', 'y', 'x', 'y'].drop 2).filter (fun x => decide (x ≠ 'y'))) ∧
    'y' ∉ postProcess ("win32") (["--xml"]) (['a', 'b', 'x', 'y', 'x', 'y']) :=
  cleanup_strips_second_char_of_truncation ("win32") (["--xml"])
    (['a', 'b', 'x', 'y', 'x', 'y']) 'y' (by decide) (by decide) (by decide) (by decide)

/-- C2: the capture encoding is UTF-16LE exactly when the platform is not
win32 and the argument list contains the XML flag; in every other case it
is UTF-8. -/
theorem encoding_utf16le_iff_nonwin_xml (platform : String) (args : List String) :
    (spawnEncoding platform args = Encoding.utf16le ↔
      (platform ≠ "win32" ∧ "--xml" ∈ args)) ∧
    (spawnEncoding platform args = Encoding.utf8 ↔
      ¬(platform ≠ "win32" ∧ "--xml" ∈ args)) := by
  unfold spawnEncoding
  constructor <;> split <;> simp_all

/-- C9 counterexample: the cleanup pass is not idempotent; on the clean
text "abc" one application yields "c" while a second application yields
the empty buffer. -/
theorem cleanup_not_idempotent :
    postProcess ("win32") (["--xml"]) (['a', 'b', 'c']) = (['c']) ∧
    postProcess ("win32") (["--xml"])
        (postProcess ("win32") (["--xml"]) (['a', 'b', 'c'])) = ([]) ∧
    (['c'] : List Char) ≠ ([]) := by
  refine ⟨by decide, by decide, by decide⟩

/-- C9 amended: a capture that is non-XML or non-Windows-like never has
the cleanup pass applied — its post-processing is the identity — and that
post-processing is therefore idempotent on such captures; the cleanup
routine itself is not idempotent. -/
theorem no_cleanup_for_nonxml_or_nonwindows (platform : String) (args : List String)
    (out : List Char) (h : "--xml" ∉ args ∨ platform ≠ "win32") :
    postProcess platform args out = out ∧
    postProcess platform args (postProcess platform args out) =
      postProcess platform args out := by
  have hcond : ¬(spawnEncoding platform args = Encoding.utf8 ∧ "--xml" ∈ args) := by
    rcases h with h | h
    · exact fun hx => h hx.2
    · intro hx
      have : spawnEncoding platform args = Encoding.utf16le := by
        unfold spawnEncoding
        rw [if_pos ⟨h, hx.2⟩]
      rw [this] at hx
      exact absurd hx.1 (by simp)
  have hid : postProcess platform args out = out := by
    unfold postProcess
    rw [if_neg hcond]
  refine ⟨hid, ?_⟩
  rw [hid, hid]

/-- Witness for the amended C9 theorem: a non-XML invocation on a
non-Windows-like platform leaves the output untouched, twice as once. -/
theorem no_cleanup_for_nonxml_or_nonwindows_witness :
    postProcess ("linux") (["v.wim"]) (['h', 'i']) = (['h', 'i']) ∧
    postProcess ("linux") (["v.wim"])
        (postProcess ("linux") (["v.wim"]) (['h', 'i'])) =
      postProcess ("linux") (["v.wim"]) (['h', 'i']) :=
  no_cleanup_for_nonxml_or_nonwindows ("linux") (["v.wim"]) (['h', 'i']) (by decide)

/-- C3 counterexample: the public operation `capture` performs no exit
status check at all — when the spawned process reports exit status 1
(`_spawn` hands back the caught exception object), `capture` still
completes without throwing any error, contrary to the claim that every
public operation surfaces a non-zero exit status as a thrown error. -/
theorem capture_no_throw_on_nonzero_exit :
    captureModel ("out.wim") ("srcdir") {} (SpawnResult.exc ⟨("Command failed"), 1⟩) =
      Except.ok (["capture", "srcdir", "out.wim"]) := by
  rfl

/-- C3 amended: only `info`, `verify` and `dir` surface a non-zero exit
status as a thrown error naming the input path (`verify` with an
integrity error); a string result — the zero-exit success case — passes
their status checks without a throw, and `capture`, `extract` and
`update` perform no status check and complete without throwing. -/
theorem exit_status_surfacing (w ow src p : String) (e : JsError) (opts : WimOptions)
    (o : List Char) (cmd : UpdateCommand) (he : e.code ≠ 0) (hcmd : cmd.type = "add") :
    verifyModel w (SpawnResult.exc e) =
      Except.error ("Integrity of " ++ w ++ " file seems compromised") ∧
    infoModel w (SpawnResult.exc e) =
      Except.error ("Cannot retrieve WIM metadata from " ++ w) ∧
    dirModel w (SpawnResult.exc e) =
      Except.error ("Cannot retrieve WIM directories and files from " ++ w) ∧
    verifyModel w (SpawnResult.text o) = Except.ok () ∧
    exceptIsOk (captureModel ow src opts (SpawnResult.exc e)) = true ∧
    exceptIsOk (extractModel ow p none opts (SpawnResult.exc e)) = true ∧
    exceptIsOk (updateModel w (some cmd) opts (SpawnResult.exc e)) = true := by
  have hct : outCodeTruthy (SpawnResult.exc e) = true := by
    simp [outCodeTruthy, he]
  refine ⟨?_, ?_, ?_, ?_, ?_, ?_, ?_⟩
  · simp [verifyModel, hct]
  · simp [infoModel, hct, jsFalsyOut]
  · simp [dirModel, hct, jsFalsyOut]
  · simp [verifyModel, outCodeTruthy]
  · simp [captureModel, exceptIsOk]
  · simp [extractModel, exceptIsOk]
  · simp [updateModel, hcmd, exceptIsOk]

/-- Witness for the amended C3 theorem at concrete paths, exit status 1
and an add command. -/
theorem exit_status_surfacing_witness :
    verifyModel ("a.wim") (SpawnResult.exc ⟨("Command failed"), 1⟩) =
      Except.error ("Integrity of " ++ "a.wim" ++ " file seems compromised") ∧
    infoModel ("a.wim") (SpawnResult.exc ⟨("Command failed"), 1⟩) =
      Except.error ("Cannot retrieve WIM metadata from " ++ "a.wim") ∧
    dirModel ("a.wim") (SpawnResult.exc ⟨("Command failed"), 1⟩) =
      Except.error ("Cannot retrieve WIM directories and files from " ++ "a.wim") ∧
    verifyModel ("a.wim") (SpawnResult.text (['o', 'k'])) = Except.ok () ∧
    exceptIsOk (captureModel ("b.wim") ("d") {} (SpawnResult.exc ⟨("Command failed"), 1⟩)) =
      true ∧
    exceptIsOk (extractModel ("b.wim") ("f") none {} (SpawnResult.exc ⟨("Command failed"), 1⟩)) =
      true ∧
    exceptIsOk (updateModel ("a.wim") (some ⟨("add"), ("x"), ("y")⟩) {}
      (SpawnResult.exc ⟨("Command failed"), 1⟩)) = true :=
  exit_status_surfacing ("a.wim") ("b.wim") ("d") ("f") ⟨("Command failed"), 1⟩ {}
    (['o', 'k']) ⟨("add"), ("x"), ("y")⟩ (by decide) (by decide)

/-- C4 counterexample: a spawn-level failure (an exception with message
"spawn ENOENT") is caught by `_spawn` and returned as a value, so it
never propagates as a thrown exception: `capture` completes normally
despite it, and `info` throws its own retrieval error whose message
differs from the original exception's message — the original exception
does not reach the caller as-is. -/
theorem spawn_failure_not_propagated_as_is :
    spawnReturn ("linux") (["w.wim"]) (SpawnRaw.fail ⟨("spawn ENOENT"), 2⟩) =
      SpawnResult.exc ⟨("spawn ENOENT"), 2⟩ ∧
    captureModel ("o.wim") ("src") {} (SpawnResult.exc ⟨("spawn ENOENT"), 2⟩) =
      Except.ok (["capture", "src", "o.wim"]) ∧
    infoModel ("w.wim") (SpawnResult.exc ⟨("spawn ENOENT"), 2⟩) =
      Except.error ("Cannot retrieve WIM metadata from w.wim") ∧
    ("Cannot retrieve WIM metadata from w.wim" : String) ≠ ("spawn ENOENT") := by
  refine ⟨rfl, rfl, rfl, by decide⟩

/-- C4 amended: a spawn-level failure is caught inside `_spawn` and
returned to the public operation as a value rather than re-thrown:
`capture`, `extract` and `update` complete without any exception reaching
their caller (`extract` returns the exception object as its result),
while `info`, `verify` and `dir` detect it through its code property and
throw their own operation-specific errors in its place; the original
exception is never propagated as-is. -/
theorem spawn_failure_swallowed_or_wrapped (platform w ow src p : String)
    (args : List String) (e : JsError) (opts : WimOptions) (he : e.code ≠ 0) :
    spawnReturn platform args (SpawnRaw.fail e) = SpawnResult.exc e ∧
    exceptIsOk (captureModel ow src opts (SpawnResult.exc e)) = true ∧
    extractModel ow p none opts (SpawnResult.exc e) =
      Except.ok (extractArgv ow p none opts, SpawnResult.exc e) ∧
    infoModel w (SpawnResult.exc e) =
      Except.error ("Cannot retrieve WIM metadata from " ++ w) ∧
    verifyModel w (SpawnResult.exc e) =
      Except.error ("Integrity of " ++ w ++ " file seems compromised") ∧
    dirModel w (SpawnResult.exc e) =
      Except.error ("Cannot retrieve WIM directories and files from " ++ w) := by
  have hct : outCodeTruthy (SpawnResult.exc e) = true := by
    simp [outCodeTruthy, he]
  refine ⟨rfl, rfl, rfl, ?_, ?_, ?_⟩
  · simp [infoModel, hct, jsFalsyOut]
  · simp [verifyModel, hct]
  · simp [dirModel, hct, jsFalsyOut]

/-- Witness for the amended C4 theorem at a concrete ENOENT-style
spawn failure. -/
theorem spawn_failure_swallowed_or_wrapped_witness :
    spawnReturn ("linux") (["a.wim"]) (SpawnRaw.fail ⟨("spawn ENOENT"), 2⟩) =
      SpawnResult.exc ⟨("spawn ENOENT"), 2⟩ ∧
    exceptIsOk (captureModel ("b.wim") ("d") {} (SpawnResult.exc ⟨("spawn ENOENT"), 2⟩)) =
      true ∧
    extractModel ("b.wim") ("f") none {} (SpawnResult.exc ⟨("spawn ENOENT"), 2⟩) =
      Except.ok (extractArgv ("b.wim") ("f") none {}, SpawnResult.exc ⟨("spawn ENOENT"), 2⟩) ∧
    infoModel ("a.wim") (SpawnResult.exc ⟨("spawn ENOENT"), 2⟩) =
      Except.error ("Cannot retrieve WIM metadata from " ++ "a.wim") ∧
    verifyModel ("a.wim") (SpawnResult.exc ⟨("spawn ENOENT"), 2⟩) =
      Except.error ("Integrity of " ++ "a.wim" ++ " file seems compromised") ∧
    dirModel ("a.wim") (SpawnResult.exc ⟨("spawn ENOENT"), 2⟩) =
      Except.error ("Cannot retrieve WIM directories and files from " ++ "a.wim") :=
  spawn_failure_swallowed_or_wrapped ("linux") ("a.wim") ("b.wim") ("d") ("f")
    (["a.wim"]) ⟨("spawn ENOENT"), 2⟩ {} (by decide)

/-- Helper: a nonempty string is truthy in the JS sense. -/
theorem isEmpty_false_of_ne (d : String) (hd : d ≠ "") : d.isEmpty = false := by
  cases hcase : d.isEmpty with
  | false => rfl
  | true => exact absurd ((String.isEmpty_iff d).mp hcase) hd

/-- Helper: the source's truthiness-guarded destination-dir push agrees
with the specification-side emission. -/
theorem emitDestDir_eq (d : Option String) :
    (if jsTruthyStr d then ["--dest-dir=" ++ optStr d] else []) = emitDestDir d := by
  rcases d with _ | s
  · rfl
  · by_cases hs : s = "" <;>
      simp [jsTruthyStr, optStr, emitDestDir, hs, String.isEmpty_iff]

/-- Helper: the source's truthiness-guarded compression push agrees with
the specification-side emission. -/
theorem emitCompress_eq (d : Option String) :
    (if jsTruthyStr d then ["--compress=" ++ optStr d] else []) = emitCompress d := by
  rcases d with _ | s
  · rfl
  · by_cases hs : s = "" <;>
      simp [jsTruthyStr, optStr, emitCompress, hs, String.isEmpty_iff]

/-- C5: the argument builder emits flags in the fixed order destination
dir, stdout redirect, source-list, compression, no-acls, unix-data,
rebuild, check, no-globs — it equals the concatenation of the nine
per-field emissions in that order for every options record (the output
depends only on the field values, not on any field-setting order) — and
an absent or false-valued option (including an empty string, which is
falsy) contributes no flag string at all. -/
theorem args_builder_fixed_order_and_absence (o : WimOptions) :
    argsOptionsBuilder o =
      emitDestDir o.destDir ++ emitToStdout o.toStdout ++ emitSourceList o.sourceList ++
        emitCompress o.compress ++ emitNoAcls o.noAcls ++ emitUnixData o.unixData ++
        emitRebuild o.rebuild ++ emitCheck o.check ++ emitNoGlobs o.noGlobs ∧
    emitDestDir none = [] ∧ emitDestDir (some ("")) = [] ∧
    emitToStdout false = [] ∧ emitSourceList false = [] ∧
    emitCompress none = [] ∧ emitCompress (some ("")) = [] ∧
    emitNoAcls false = [] ∧ emitUnixData false = [] ∧
    emitRebuild false = [] ∧ emitCheck false = [] ∧ emitNoGlobs false = [] ∧
    argsOptionsBuilder {} = [] := by
  refine ⟨?_, rfl, rfl, rfl, rfl, rfl, rfl, rfl, rfl, rfl, rfl, rfl, rfl⟩
  rw [argsOptionsBuilder, emitDestDir_eq, emitCompress_eq]
  rfl

/-- C6: for a command of type add, delete or rename, `update` renders the
single textual instruction `<verb> "<input>" "<output>"` and passes it as
the fourth entry of the subprocess argument vector; for any other type it
throws the unsupported-command error, and for a missing command it throws
the missing-command error — in both cases before any subprocess argv is
produced. -/
theorem update_command_rendering (w t i o : String) (opts : WimOptions) (out : SpawnResult) :
    ((t = "add" ∨ t = "delete" ∨ t = "rename") →
      updateModel w (some ⟨t, i, o⟩) opts out =
        Except.ok ("update" :: w :: toString ((imageDefaulted opts.image).getD 1) ::
          (t ++ " \"" ++ i ++ "\" \"" ++ o ++ "\"") ::
          argsOptionsBuilder ({ opts with image := imageDefaulted opts.image }))) ∧
    (t ≠ "add" → t ≠ "delete" → t ≠ "rename" →
      updateModel w (some ⟨t, i, o⟩) opts out =
        Except.error ("command " ++ t ++ " not supported")) ∧
    updateModel w none opts out = Except.error ("A command must be specified") := by
  refine ⟨?_, ?_, rfl⟩
  · intro ht
    simp [updateModel, ht]
  · intro h1 h2 h3
    simp [updateModel, h1, h2, h3]

/-- Witness for the C6 theorem: an add command renders as the quoted
instruction, an unrecognized type and a missing command throw. -/
theorem update_command_rendering_witness :
    updateModel ("w.wim") (some ⟨("add"), ("a"), ("b")⟩) {} (SpawnResult.text ([])) =
      Except.ok ("update" :: "w.wim" :: toString ((imageDefaulted none).getD 1) ::
        ("add" ++ " \"" ++ "a" ++ "\" \"" ++ "b" ++ "\"") ::
        argsOptionsBuilder ({ ({} : WimOptions) with image := imageDefaulted none })) ∧
    updateModel ("w.wim") (some ⟨("move"), ("a"), ("b")⟩) {} (SpawnResult.text ([])) =
      Except.error ("command " ++ "move" ++ " not supported") ∧
    updateModel ("w.wim") none {} (SpawnResult.text ([])) =
      Except.error ("A command must be specified") :=
  ⟨(update_command_rendering ("w.wim") ("add") ("a") ("b") {} (SpawnResult.text ([]))).1
      (by decide),
    (update_command_rendering ("w.wim") ("move") ("a") ("b") {} (SpawnResult.text ([]))).2.1
      (by decide) (by decide) (by decide),
    (update_command_rendering ("w.wim") ("x") ("a") ("b") {} (SpawnResult.text ([]))).2.2⟩

/-- C7: with `destDir` unset and a nonempty output directory, extract
with the `outputDir` argument produces exactly the same subprocess
argument vector as extract with `options.destDir` set directly to that
value, and when the image index is unset the positional image argument
defaults to 1. -/
theorem extract_outputDir_equiv_destDir (w p d : String) (opts : WimOptions)
    (hdd : opts.destDir = none) (hd : d ≠ "") :
    extractArgv w p (some d) opts = extractArgv w p none ({ opts with destDir := some d }) ∧
    (opts.image = none → (extractArgv w p (some d) opts)[2]? = some ("1")) := by
  have hne := isEmpty_false_of_ne d hd
  constructor
  · rcases opts with ⟨dd, ts, sl, cp, na, ud, rb, ck, ng, im⟩
    simp only [WimOptions.mk.injEq] at hdd ⊢
    subst hdd
    simp [extractArgv, extractOptionsAfter, jsTruthyStr, hne]
  · intro him
    simp [extractArgv, extractOptionsAfter, jsTruthyStr, hne, him, imageDefaulted]
    rfl

/-- Witness for the C7 theorem at a concrete WIM path, archive path and
output directory with empty options. -/
theorem extract_outputDir_equiv_destDir_witness :
    extractArgv ("a.wim") ("f") (some ("out")) {} =
      extractArgv ("a.wim") ("f") none ({ ({} : WimOptions) with destDir := some ("out") }) ∧
    ((extractArgv ("a.wim") ("f") (some ("out")) {})[2]? = some ("1")) := by
  have h := extract_outputDir_equiv_destDir ("a.wim") ("f") ("out") {} rfl (by decide)
  exact ⟨h.1, h.2 rfl⟩

/-- C8: `info` always passes the XML flag to `_spawn`, throws the
retrieval error naming the input WIM exactly when the captured output is
empty or the result carries a truthy code (non-zero exit status or spawn
failure), and otherwise returns the output for XML parsing. -/
theorem info_contract (w : String) (out : SpawnResult) :
    ("--xml" ∈ infoSpawnArgs w) ∧
    (infoModel w out = Except.error ("Cannot retrieve WIM metadata from " ++ w) ↔
      (out = SpawnResult.text ([]) ∨ outCodeTruthy out = true)) ∧
    (jsFalsyOut out = false → outCodeTruthy out = false → infoModel w out = Except.ok out) := by
  refine ⟨by simp [infoSpawnArgs], ?_, ?_⟩
  · rcases out with s | e
    · by_cases hs : s = [] <;> simp [infoModel, jsFalsyOut, outCodeTruthy, hs]
    · simp [infoModel, jsFalsyOut, outCodeTruthy]
  · intro h1 h2
    simp [infoModel, h1, h2]

/-- Witness for the C8 theorem at a concrete nonempty one-character
output. -/
theorem info_contract_witness :
    ("--xml" ∈ infoSpawnArgs ("a.wim")) ∧
    (infoModel ("a.wim") (SpawnResult.text (['x'])) =
        Except.error ("Cannot retrieve WIM metadata from " ++ "a.wim") ↔
      (SpawnResult.text (['x']) = SpawnResult.text ([]) ∨
        outCodeTruthy (SpawnResult.text (['x'])) = true)) ∧
    infoModel ("a.wim") (SpawnResult.text (['x'])) = Except.ok (SpawnResult.text (['x'])) :=
  have h := info_contract ("a.wim") (SpawnResult.text (['x']))
  ⟨h.1, h.2.1, h.2.2 (by decide) (by decide)⟩

/-- C10: extract writes a nonempty output directory into the caller's
`destDir` field for every options record; extract and update overwrite
the `image` field with 1 whenever it is unset or falsy (zero), so an
explicit image index of 0 is silently replaced by 1; and in that falsy
case the caller's record observably differs after the call. -/
theorem extract_update_mutate_options (d : String) (opts : WimOptions) (hd : d ≠ "") :
    (extractOptionsAfter (some d) opts).destDir = some d ∧
    ((opts.image = none ∨ opts.image = some 0) →
      (extractOptionsAfter (some d) opts).image = some 1 ∧
      (updateOptionsAfter opts).image = some 1) ∧
    (opts.image = some 0 →
      extractOptionsAfter (some d) opts ≠ opts ∧
      updateOptionsAfter opts ≠ opts) := by
  have hx : jsTruthyStr (some d) = true := by
    simp [jsTruthyStr, isEmpty_false_of_ne d hd]
  have himg : opts.image = none ∨ opts.image = some 0 →
      imageDefaulted opts.image = some 1 := by
    intro hfa
    rcases hfa with h | h <;> rw [h] <;> rfl
  refine ⟨by simp [extractOptionsAfter, hx], ?_, ?_⟩
  · intro hfa
    constructor
    · simp [extractOptionsAfter, hx, himg hfa]
    · simp [updateOptionsAfter, himg hfa]
  · intro h0
    have he1 : (extractOptionsAfter (some d) opts).image = some 1 := by
      simp [extractOptionsAfter, hx, himg (Or.inr h0)]
    have he2 : (updateOptionsAfter opts).image = some 1 := by
      simp [updateOptionsAfter, himg (Or.inr h0)]
    constructor
    · intro h
      rw [h, h0] at he1
      simp at he1
    · intro h
      rw [h, h0] at he2
      simp at he2

/-- Witness for the C10 theorem at a concrete output directory, applied
both to an options record with the image index unset and to one with an
explicit image index of 0. -/
theorem extract_update_mutate_options_witness :
    (extractOptionsAfter (some ("out")) {}).destDir = some ("out") ∧
    (extractOptionsAfter (some ("out")) {}).image = some 1 ∧
    (updateOptionsAfter {}).image = some 1 ∧
    (extractOptionsAfter (some ("out")) ({ ({} : WimOptions) with image := some 0 })).image =
      some 1 ∧
    (updateOptionsAfter ({ ({} : WimOptions) with image := some 0 })).image = some 1 ∧
    extractOptionsAfter (some ("out")) ({ ({} : WimOptions) with image := some 0 }) ≠
      ({ ({} : WimOptions) with image := some 0 }) ∧
    updateOptionsAfter ({ ({} : WimOptions) with image := some 0 }) ≠
      ({ ({} : WimOptions) with image := some 0 }) :=
  have h1 := extract_update_mutate_options ("out") {} (by decide)
  have h2 := extract_update_mutate_options ("out")
    ({ ({} : WimOptions) with image := some 0 }) (by decide)
  ⟨h1.1, (h1.2.1 (Or.inl rfl)).1, (h1.2.1 (Or.inl rfl)).2,
    (h2.2.1 (Or.inr rfl)).1, (h2.2.1 (Or.inr rfl)).2,
    (h2.2.2 rfl).1, (h2.2.2 rfl).2⟩
